import Mathlib

/-!
Verification of the pomagam-to-dopomoha POI pipeline.

This file gives a shallow embedding of the validation-and-diff pipeline
(`src/parser.py`, `src/main.py`) and proves or refutes the specified
properties of its field validators (`Parser.parse_*`), the validation
pipeline (`parse_pois`), the snapshot diff (`diff_cache`), and the
translation reconciliation (`filter_translation`,
`update_poi_translation`).

Python values are modelled by `PyVal` (JSON-shaped data: null, strings,
numbers as exact rationals, booleans, lists), Python exceptions by
`PyErr`, distinguishing `ValueError` (the only exception the pipeline
catches) from `TypeError` / `AttributeError` / `KeyError`.  Python
dictionaries are association lists with unique keys; `alookup`,
`aerase`, `setKey` and `dictUpdate` model subscripting, `del`,
assignment and `dict.update`.
-/

set_option linter.unusedVariables false

/-- Model of a Python/JSON value as it flows through the pipeline. -/
inductive PyVal where
  | none
  | str (s : String)
  | num (q : ℚ)
  | bool (b : Bool)
  | list (xs : List PyVal)

/-- Model of a Python exception.  `valueError` is the only kind the
pipeline's `except ValueError` in `parse_pois` catches. -/
inductive PyErr where
  | valueError (msg : String)
  | typeError (msg : String)
  | attributeError (msg : String)
  | keyError (msg : String)
deriving DecidableEq

/-- Does `except ValueError` catch this exception? -/
def isValueError : PyErr → Bool
  | .valueError _ => true
  | _ => false

/-- Message carried by an exception, modelling `str(error)`. -/
def errMsg : PyErr → String
  | .valueError m => m
  | .typeError m => m
  | .attributeError m => m
  | .keyError m => m

/-- Python truthiness of a value (`if not value: ...`). -/
def pyTruthy : PyVal → Bool
  | .none => false
  | .str s => s != ""
  | .num q => q != 0
  | .bool b => b
  | .list xs => !xs.isEmpty

mutual

/-- Model of Python `str(value)` on pipeline values. -/
def pyStr : PyVal → String
  | .none => "None"
  | .str s => s
  | .num q => toString q
  | .bool b => cond b "True" "False"
  | .list xs => "[" ++ pyStrList xs ++ "]"

/-- Model of Python `repr(value)`, used for elements inside a list. -/
def pyRepr : PyVal → String
  | .none => "None"
  | .str s => "\x27" ++ s ++ "\x27"
  | .num q => toString q
  | .bool b => cond b "True" "False"
  | .list xs => "[" ++ pyStrList xs ++ "]"

/-- Comma-separated rendering of the elements of a Python list. -/
def pyStrList : List PyVal → String
  | [] => ""
  | [x] => pyRepr x
  | x :: xs => pyRepr x ++ ", " ++ pyStrList xs

end

mutual

/-- Model of Python `==` on pipeline values (`True == 1`, `1 == 1.0`). -/
def pyEq : PyVal → PyVal → Bool
  | .none, .none => true
  | .str a, .str b => a == b
  | .num a, .num b => a == b
  | .bool a, .bool b => a == b
  | .num a, .bool b => a == cond b 1 0
  | .bool a, .num b => cond a 1 0 == b
  | .list xs, .list ys => pyEqList xs ys
  | _, _ => false

/-- Elementwise Python `==` on lists. -/
def pyEqList : List PyVal → List PyVal → Bool
  | [], [] => true
  | x :: xs, y :: ys => pyEq x y && pyEqList xs ys
  | _, _ => false

end

/-- Model of Python `value in xs` membership. -/
def pyMem (v : PyVal) (xs : List PyVal) : Bool :=
  xs.any (fun w => pyEq v w)

/-- Python `s[key]` with a string subscript on a `str` value: always a
`TypeError` (string indices must be integers). -/
def pyStrIndex (s : String) (key : String) : Except PyErr PyVal :=
  .error (.typeError "string indices must be integers")

/-! ### Association-list model of Python dictionaries -/

/-- Dictionary lookup, `d[k]` / `d.get(k)`: first entry with key `k`. -/
def alookup {β : Type} (k : String) : List (String × β) → Option β
  | [] => Option.none
  | (k', v) :: rest => if k' = k then some v else alookup k rest

/-- Dictionary deletion, `del d[k]`: drops the entry with key `k`. -/
def aerase {β : Type} (k : String) : List (String × β) → List (String × β)
  | [] => []
  | (k', v) :: rest => if k' = k then rest else (k', v) :: aerase k rest

/-- Dictionary assignment, `d[k] = v`: overwrites in place or appends. -/
def setKey {β : Type} : List (String × β) → String → β → List (String × β)
  | [], k, v => [(k, v)]
  | (k', v') :: rest, k, v =>
      if k' = k then (k, v) :: rest else (k', v') :: setKey rest k v

/-- Dictionary update, `d.update(u)`: assigns every entry of `u`. -/
def dictUpdate {β : Type} (d u : List (String × β)) : List (String × β) :=
  u.foldl (fun acc kv => setKey acc kv.1 kv.2) d

/-! ### Numeric coercion, `float(value)` -/

/-- Natural number denoted by a run of decimal digits. -/
def digitsVal (l : List Char) : ℕ :=
  l.foldl (fun acc c => acc * 10 + (c.toNat - 48)) 0

/-- Parse an unsigned decimal string (`"12"`, `"12.5"`, `"12."`, `".5"`)
into an exact rational, as Python `float` does (exponent notation and
`inf`/`nan` spellings are outside the pipeline's inputs and omitted). -/
def parseUnsignedDecimal (s : String) : Option ℚ :=
  match s.splitOn "." with
  | [intPart] =>
      if intPart ≠ "" ∧ intPart.all Char.isDigit then
        some (digitsVal intPart.data)
      else Option.none
  | [intPart, fracPart] =>
      if (intPart ≠ "" ∨ fracPart ≠ "") ∧ intPart.all Char.isDigit ∧
          fracPart.all Char.isDigit then
        some ((digitsVal intPart.data : ℚ) +
          (digitsVal fracPart.data : ℚ) / (10 : ℚ) ^ fracPart.length)
      else Option.none
  | _ => Option.none

/-- Parse a decimal string with optional sign and surrounding
whitespace, as Python `float(str)` accepts. -/
def strToRat (s : String) : Option ℚ :=
  let t := s.trim
  match t.data with
  | '-' :: rest => (parseUnsignedDecimal (String.mk rest)).map Neg.neg
  | '+' :: rest => parseUnsignedDecimal (String.mk rest)
  | _ => parseUnsignedDecimal t

/-- Model of Python `float(value)`: numbers and booleans coerce, strings
parse or raise `ValueError`, `None` and lists raise `TypeError`. -/
def pyFloat : PyVal → Except PyErr ℚ
  | .num q => .ok q
  | .bool b => .ok (cond b 1 0)
  | .str s =>
      match strToRat s with
      | some q => .ok q
      | Option.none =>
          .error (.valueError
            ("could not convert string to float: \x27" ++ s ++ "\x27"))
  | .none => .error (.typeError "float() argument must be a string or a number")
  | .list _ => .error (.typeError "float() argument must be a string or a number")

/-! ### Third-party sanitizers (modelled) -/

/-- Tag-stripping scanner underlying the `bleach.clean` model. -/
def stripTagsAux : List Char → Bool → List Char
  | [], _ => []
  | c :: cs, inTag =>
      if c = '<' then stripTagsAux cs true
      else if c = '>' then stripTagsAux cs false
      else if inTag then stripTagsAux cs inTag
      else c :: stripTagsAux cs false

/-- Model of `bleach.clean(value, strip=True)`: markup tags removed,
text content kept.  Only its totality on strings matters to the claims;
it raises `TypeError` on non-string input, which is modelled at its call
sites. -/
def bleach_clean (s : String) : String :=
  String.mk (stripTagsAux s.data false)

/-- Model of the `lxml` text extraction in `parse_description`:
block/line elements become newlines and the list fix is applied, before
`bleach_clean`.  The claims do not depend on the exact text produced. -/
def lxml_text (s : String) : String :=
  (((s.replace "<br>" "\n").replace "</div>" "\n").replace "<li>" "\n- ").replace ", -" ",\n-"

/-! ### Field validators (`src/parser.py`, class `Parser`) -/

namespace Parser

/-- The fixed 9-entry category id → name table (`Parser.CATEGORIES`). -/
def CATEGORIES : List (String × String) :=
  [("1", "charityDropOff"),
   ("2", "accommodation"),
   ("3", "govermentCharity"),
   ("4", "psychologicalAssistance"),
   ("5", "legalAssistance"),
   ("6", "medicalAssistance"),
   ("7", "animalAssistance"),
   ("8", "childcare"),
   ("9", "transport")]

/-- `Parser.parse_id`: empty is a `ValueError`, otherwise `str(value)`. -/
def parse_id (value : PyVal) : Except PyErr PyVal :=
  if pyTruthy value then .ok (.str (pyStr value)) else
    .error (.valueError "ID cannot be empty!")

/-- `Parser.parse_category`: must be a list with at most one element; an
empty list is the default category `CATEGORIES['1']`; a single element
resolves through the table, anything else is a `ValueError` (the
`except Exception` around the table lookup turns `KeyError` and
`TypeError` into `ValueError`). -/
def parse_category (value : PyVal) : Except PyErr PyVal :=
  match value with
  | .list xs =>
      if 1 < xs.length then
        .error (.valueError ("Unexpected multiple categories: " ++ pyStr value))
      else
        match xs with
        | [] => .ok (.str ((alookup "1" CATEGORIES).getD ""))
        | x :: _ =>
            match x with
            | .str c =>
                match alookup c CATEGORIES with
                | some name => .ok (.str name)
                | Option.none =>
                    .error (.valueError ("Unexpected category ID: " ++ pyStr x))
            | _ => .error (.valueError ("Unexpected category ID: " ++ pyStr x))
  | _ => .error (.valueError ("Unexpected category data type: " ++ pyStr value))

/-- The accepted "verified" vocabulary (`TRUE_VALUES`). -/
def TRUE_VALUES : List String :=
  ["tak", "zweryfikowany", "zweryfikowane", "zweryfikowana", "zweryfikowano"]

/-- The accepted "not verified" vocabulary (`FALSE_VALUES`). -/
def FALSE_VALUES : List String :=
  ["nie", "niezweryfikowany", "niezweryfikowana", "niezweryfikowane",
   "niezweryfikowano"]

/-- Normalization in `parse_verified`:
`''.join(value.strip().split()).lower()` removes every whitespace
character and lower-cases the rest. -/
def pyCleanLower (s : String) : String :=
  String.mk ((s.data.filter (fun c => !c.isWhitespace)).map Char.toLower)

/-- `Parser.parse_verified`: falsy input is `False`; a non-empty string
is whitespace-stripped and lower-cased, then matched against the two
vocabularies, otherwise a `ValueError`; a truthy non-string hits
`value.strip()` and raises `AttributeError`. -/
def parse_verified (value : PyVal) : Except PyErr PyVal :=
  if pyTruthy value = false then .ok (.bool false)
  else
    match value with
    | .str s =>
        let cv := pyCleanLower s
        if cv ∈ TRUE_VALUES then .ok (.bool true)
        else if cv ∈ FALSE_VALUES then .ok (.bool false)
        else .error (.valueError ("Unexpected verified value: " ++ s))
    | _ => .error (.attributeError "object has no attribute strip")

/-- `Parser.parse_lat`: `float(value)`, then the strict open range
check `45 < lat < 56`, rejections report the value as suspicious. -/
def parse_lat (value : PyVal) : Except PyErr PyVal :=
  match pyFloat value with
  | .error e => .error e
  | .ok lat =>
      if 45 < lat ∧ lat < 56 then .ok (.num lat)
      else .error (.valueError ("Suspicious latitude: " ++ toString lat))

/-- `Parser.parse_lng`: `float(value)`, then the strict open range
check `12 < lng < 30`, rejections report the value as suspicious. -/
def parse_lng (value : PyVal) : Except PyErr PyVal :=
  match pyFloat value with
  | .error e => .error e
  | .ok lng =>
      if 12 < lng ∧ lng < 30 then .ok (.num lng)
      else .error (.valueError ("Suspicious longitude: " ++ toString lng))

/-- `Parser.parse_name`: empty is a `ValueError`, a string is sanitized,
a truthy non-string raises `TypeError` inside `bleach.clean`. -/
def parse_name (value : PyVal) : Except PyErr PyVal :=
  if pyTruthy value = false then .error (.valueError "Name cannot be empty!")
  else
    match value with
    | .str s => .ok (.str (bleach_clean s))
    | _ => .error (.typeError "argument cannot be of non-str type")

/-- `Parser.parse_description`: falsy yields `None`; a string goes
through the (exception-swallowing) lxml text extraction and is
sanitized; a truthy non-string reaches `bleach.clean` and raises
`TypeError`. -/
def parse_description (value : PyVal) : Except PyErr PyVal :=
  if pyTruthy value = false then .ok .none
  else
    match value with
    | .str s => .ok (.str (bleach_clean (lxml_text s)))
    | _ => .error (.typeError "argument cannot be of non-str type")

/-- `Parser.parse_phone`: falsy yields `None`, strings are sanitized,
truthy non-strings raise `TypeError` inside `bleach.clean`. -/
def parse_phone (value : PyVal) : Except PyErr PyVal :=
  if pyTruthy value = false then .ok .none
  else
    match value with
    | .str s => .ok (.str (bleach_clean s))
    | _ => .error (.typeError "argument cannot be of non-str type")

/-- `Parser.parse_addr`: same shape as `parse_phone`. -/
def parse_addr (value : PyVal) : Except PyErr PyVal :=
  if pyTruthy value = false then .ok .none
  else
    match value with
    | .str s => .ok (.str (bleach_clean s))
    | _ => .error (.typeError "argument cannot be of non-str type")

/-- `Parser.parse_opening_hours`: same shape as `parse_phone`. -/
def parse_opening_hours (value : PyVal) : Except PyErr PyVal :=
  if pyTruthy value = false then .ok .none
  else
    match value with
    | .str s => .ok (.str (bleach_clean s))
    | _ => .error (.typeError "argument cannot be of non-str type")

/-- `Parser.parse_website`: `str(value) if value else None`, total. -/
def parse_website (value : PyVal) : Except PyErr PyVal :=
  if pyTruthy value then .ok (.str (pyStr value)) else .ok .none

end Parser

/-! ### Validation pipeline (`src/main.py`, `parse_pois`) -/

/-- The validator dispatch table (`FIELD_PARSER` in the source): one
function per canonical attribute name. -/
def FIELD_PARSERS : List (String × (PyVal → Except PyErr PyVal)) :=
  [("id", Parser.parse_id),
   ("category", Parser.parse_category),
   ("verified", Parser.parse_verified),
   ("lat", Parser.parse_lat),
   ("lng", Parser.parse_lng),
   ("name", Parser.parse_name),
   ("description", Parser.parse_description),
   ("phone", Parser.parse_phone),
   ("addr", Parser.parse_addr),
   ("opening_hours", Parser.parse_opening_hours),
   ("website", Parser.parse_website)]

/-- A canonical record / marker: a dictionary from canonical attribute
name to raw value, in insertion order. -/
abbrev Marker := List (String × PyVal)

/-- The inner loop of `parse_pois` over one marker's items: each field
is validated; a `ValueError` is caught and recorded in the error map and
the loop continues; any other exception (and a `KeyError` from the
dispatch `FIELD_PARSER[key]`) propagates and aborts. -/
def parse_marker : Marker → Except PyErr (List (String × PyVal) × List (String × String))
  | [] => .ok ([], [])
  | (key, value) :: rest =>
      match alookup key FIELD_PARSERS with
      | Option.none => .error (.keyError key)
      | some f =>
          match f value with
          | .ok v =>
              match parse_marker rest with
              | .ok (poi, errs) => .ok ((key, v) :: poi, errs)
              | .error e => .error e
          | .error e =>
              if isValueError e then
                match parse_marker rest with
                | .ok (poi, errs) => .ok (poi, (key, errMsg e) :: errs)
                | .error e' => .error e'
              else .error e

/-- `parse_pois`: partitions markers into valid POIs and invalid
`(error map, original marker)` pairs, in input order; an uncaught
exception from any field aborts the whole run. -/
def parse_pois : List Marker →
    Except PyErr (List (List (String × PyVal)) × List (List (String × String) × Marker))
  | [] => .ok ([], [])
  | m :: ms =>
      match parse_marker m with
      | .error e => .error e
      | .ok (poi, errs) =>
          match parse_pois ms with
          | .error e => .error e
          | .ok (pois, invalid) =>
              if errs.isEmpty then .ok (poi :: pois, invalid)
              else .ok (pois, (errs, m) :: invalid)

/-! ### Diff engine (`src/main.py`, `diff_cache`) -/

/-- A validated POI as the diff engine reads it: the identifier, the two
comparison fields with their validated types (`parse_name` returns a
string, `parse_description` a string or `None`), and the remaining
attributes. -/
structure Poi where
  id : String
  name : String
  description : Option String
  other : List (String × PyVal)

/-- The nested `is_modified` of `diff_cache`: only `name` and
`description` are compared. -/
def is_modified (poi_new poi_old : Poi) : Bool :=
  poi_new.name != poi_old.name || poi_new.description != poi_old.description

/-- The three classification dictionaries returned by `diff_cache`,
each keyed by POI identifier. -/
structure Diff where
  created : List (String × Poi)
  modified : List (String × Poi)
  deleted : List (String × Poi)

/-- A snapshot (the loaded `.pomagam_cache.json`): identifier → POI. -/
abbrev Snapshot := List (String × Poi)

/-- The loop of `diff_cache` over the current POIs, threading the
working copy of the snapshot: absent identifiers are `created`, present
ones are compared with `is_modified` and removed from the working copy,
whose remainder is returned for `deleted`. -/
def diffRec : List Poi → Snapshot → List (String × Poi) × List (String × Poi) × Snapshot
  | [], cache => ([], [], cache)
  | poi :: pois, cache =>
      match alookup poi.id cache with
      | Option.none =>
          ((poi.id, poi) :: (diffRec pois cache).1,
           (diffRec pois cache).2.1,
           (diffRec pois cache).2.2)
      | some poi_cached =>
          if is_modified poi poi_cached then
            ((diffRec pois (aerase poi.id cache)).1,
             (poi.id, poi) :: (diffRec pois (aerase poi.id cache)).2.1,
             (diffRec pois (aerase poi.id cache)).2.2)
          else diffRec pois (aerase poi.id cache)

/-- `diff_cache` as a function of the current POIs and the loaded
snapshot (a read failure loads the empty snapshot `[]`); `deleted` is
the leftover of the working snapshot copy. -/
def diff_cache (pois : List Poi) (cache : Snapshot) : Diff :=
  { created := (diffRec pois cache).1,
    modified := (diffRec pois cache).2.1,
    deleted := (diffRec pois cache).2.2 }

/-- The replacement snapshot written by `diff_cache` when `update` is
set: `{poi['id']: poi for poi in pois}`. -/
def new_cache (pois : List Poi) : Snapshot :=
  pois.map (fun poi => (poi.id, poi))

/-- One run of the diff stage: the diff against the prior snapshot,
and the snapshot persisted for the next run. -/
def run_diff (pois : List Poi) (cache : Snapshot) : Diff × Snapshot :=
  (diff_cache pois cache, new_cache pois)

/-! ### Translation reconciliation (`src/main.py`) -/

/-- A record keyed by identifier: a translation row (or, for the merge,
a POI viewed as a dictionary).  The `id` entry is held separately; the
remaining entries are `attrs` in insertion order. -/
structure Rec where
  id : String
  attrs : List (String × PyVal)

/-- The nested `clean_record` of `update_poi_translation`: removes every
falsy-valued property. -/
def clean_record (attrs : List (String × PyVal)) : List (String × PyVal) :=
  attrs.filter (fun kv => pyTruthy kv.2)

/-- The lookup `translation[poi_id]` against the dictionary
`{record['id']: clean_record(record) for record in translation_data}`;
with duplicate row identifiers the last row wins, as in a Python dict
comprehension. -/
def translation_lookup (translation_data : List Rec) (k : String) :
    Option (List (String × PyVal)) :=
  alookup k ((translation_data.map (fun r => (r.id, clean_record r.attrs))).reverse)

/-- `update_poi_translation`: every POI whose identifier has a
translation row is updated in place with the row's cleaned properties;
all other POIs are untouched.  (Updating the `id` entry with itself is
a no-op and is elided by the `Rec` view.) -/
def update_poi_translation (pois : List Rec) (translation_data : List Rec) :
    List Rec :=
  pois.map (fun poi =>
    match translation_lookup translation_data poi.id with
    | Option.none => poi
    | some attrs => { poi with attrs := dictUpdate poi.attrs attrs })

/-- `filter_translation`: builds the id set with
`{poi['id'] for poi in diff['modified']}` — iterating the `modified`
dictionary yields its string keys, and subscripting a string with
`'id'` raises `TypeError` — then keeps the rows whose id is not in the
set. -/
def filter_translation (translation_data : List Rec) (diff : Diff) :
    Except PyErr (List Rec) :=
  match (diff.modified.map Prod.fst).mapM (fun poi => pyStrIndex poi "id") with
  | .error e => .error e
  | .ok ids1 =>
      match (diff.deleted.map Prod.fst).mapM (fun poi => pyStrIndex poi "id") with
      | .error e => .error e
      | .ok ids2 =>
          .ok (translation_data.filter
            (fun record => !pyMem (.str record.id) (ids1 ++ ids2)))

/-! ### Lemmas about the dictionary model -/

theorem alookup_eq_none_iff {β : Type} (k : String) (l : List (String × β)) :
    alookup k l = Option.none ↔ ∀ kv ∈ l, kv.1 ≠ k := by
  induction l with
  | nil => simp [alookup]
  | cons kv rest ih =>
      obtain ⟨k', v⟩ := kv
      by_cases h : k' = k <;> simp [alookup, h, ih]

theorem alookup_mem {β : Type} {k : String} {l : List (String × β)} {v : β}
    (h : alookup k l = some v) : (k, v) ∈ l := by
  induction l with
  | nil => simp [alookup] at h
  | cons kv rest ih =>
      obtain ⟨k', v'⟩ := kv
      by_cases hk : k' = k
      · subst hk
        simp [alookup] at h
        simp [h]
      · simp [alookup, hk] at h
        exact List.mem_cons_of_mem _ (ih h)

theorem alookup_aerase_ne {β : Type} {k k' : String} (h : k ≠ k')
    (l : List (String × β)) : alookup k (aerase k' l) = alookup k l := by
  induction l with
  | nil => simp [aerase]
  | cons kv rest ih =>
      obtain ⟨k₀, v⟩ := kv
      by_cases h₀ : k₀ = k'
      · subst h₀
        have hne : ¬ (k₀ = k) := fun hk => h (hk ▸ rfl)
        simp [aerase, alookup, hne]
      · by_cases h₁ : k₀ = k <;>
          simp [aerase, alookup, h₀, h₁, h, ih]

theorem aerase_sublist {β : Type} (k : String) (l : List (String × β)) :
    List.Sublist (aerase k l) l := by
  induction l with
  | nil => simp [aerase]
  | cons kv rest ih =>
      obtain ⟨k', v⟩ := kv
      by_cases h : k' = k
      · simp only [aerase, if_pos h]
        exact List.sublist_cons_self _ _
      · simp only [aerase, if_neg h]
        exact List.Sublist.cons₂ (k', v) ih

theorem aerase_eq_filter {β : Type} {k : String} {l : List (String × β)}
    (h : (l.map Prod.fst).Nodup) :
    aerase k l = l.filter (fun kv => kv.1 != k) := by
  induction l with
  | nil => simp [aerase]
  | cons kv rest ih =>
      obtain ⟨k', v⟩ := kv
      simp only [List.map_cons, List.nodup_cons] at h
      by_cases hk : k' = k
      · subst hk
        have hall : ∀ kv ∈ rest, (kv.1 != k') = true := by
          intro kv hkv
          simp only [bne_iff_ne, ne_eq]
          intro hne
          exact h.1 (hne ▸ List.mem_map_of_mem Prod.fst hkv)
        simp [aerase, List.filter_cons, List.filter_eq_self.mpr hall]
      · simp [aerase, List.filter_cons, hk, ih h.2, bne]

theorem alookup_setKey {β : Type} (k k₀ : String) (v₀ : β)
    (d : List (String × β)) :
    alookup k (setKey d k₀ v₀) = if k₀ = k then some v₀ else alookup k d := by
  induction d with
  | nil => by_cases h : k₀ = k <;> simp [setKey, alookup, h]
  | cons kv rest ih =>
      obtain ⟨k', v'⟩ := kv
      by_cases h : k' = k₀
      · subst h
        by_cases hk : k' = k <;> simp [setKey, alookup, hk]
      · by_cases hk : k' = k
        · subst hk
          have : ¬ (k₀ = k') := fun hh => h hh.symm
          simp [setKey, alookup, h, this]
        · simp [setKey, alookup, h, hk, ih]

theorem alookup_dictUpdate {β : Type} {u : List (String × β)}
    (hu : (u.map Prod.fst).Nodup) (d : List (String × β)) (k : String) :
    alookup k (dictUpdate d u) =
      match alookup k u with
      | some v => some v
      | Option.none => alookup k d := by
  induction u generalizing d with
  | nil => simp [dictUpdate, alookup]
  | cons kv rest ih =>
      obtain ⟨k₀, v₀⟩ := kv
      simp only [List.map_cons, List.nodup_cons] at hu
      have step : dictUpdate d ((k₀, v₀) :: rest) = dictUpdate (setKey d k₀ v₀) rest := rfl
      rw [step, ih hu.2]
      by_cases hk : k₀ = k
      · subst hk
        have hrest : alookup k₀ rest = Option.none :=
          (alookup_eq_none_iff _ _).mpr (by
            intro kv hkv hkeq
            exact hu.1 (hkeq ▸ List.mem_map_of_mem Prod.fst hkv))
        simp [alookup, hrest, alookup_setKey]
      · simp [alookup, hk, alookup_setKey]

/-! ### Characterization of the diff loop -/

theorem diffRec_created (pois : List Poi) :
    ∀ cache : Snapshot, (pois.map Poi.id).Nodup →
      (diffRec pois cache).1 =
        (pois.filter (fun p => (alookup p.id cache).isNone)).map
          (fun p => (p.id, p)) := by
  induction pois with
  | nil => intro cache hp; simp [diffRec]
  | cons p ps ih =>
      intro cache hp
      simp only [List.map_cons, List.nodup_cons] at hp
      have hfe : ∀ cache' : Snapshot,
          (∀ x ∈ ps, alookup x.id cache' = alookup x.id cache) →
          (ps.filter (fun x => (alookup x.id cache').isNone)) =
            (ps.filter (fun x => (alookup x.id cache).isNone)) := by
        intro cache' hsame
        apply List.filter_congr
        intro x hx
        rw [hsame x hx]
      cases hcase : alookup p.id cache with
      | none =>
          simp [diffRec, hcase, List.filter_cons, ih cache hp.2]
      | some q =>
          have hlook : ∀ x ∈ ps, alookup x.id (aerase p.id cache) = alookup x.id cache := by
            intro x hx
            apply alookup_aerase_ne
            intro hxe
            exact hp.1 (hxe ▸ List.mem_map_of_mem Poi.id hx)
          have hrec := ih (aerase p.id cache) hp.2
          rw [hfe _ hlook] at hrec
          by_cases hm : is_modified p q <;>
            simp [diffRec, hcase, hm, List.filter_cons, hrec]

theorem diffRec_modified (pois : List Poi) :
    ∀ cache : Snapshot, (pois.map Poi.id).Nodup →
      (diffRec pois cache).2.1 =
        (pois.filter (fun p =>
          match alookup p.id cache with
          | some q => is_modified p q
          | Option.none => false)).map (fun p => (p.id, p)) := by
  induction pois with
  | nil => intro cache hp; simp [diffRec]
  | cons p ps ih =>
      intro cache hp
      simp only [List.map_cons, List.nodup_cons] at hp
      have hfe : ∀ cache' : Snapshot,
          (∀ x ∈ ps, alookup x.id cache' = alookup x.id cache) →
          (ps.filter (fun x =>
            match alookup x.id cache' with
            | some q => is_modified x q
            | Option.none => false)) =
          (ps.filter (fun x =>
            match alookup x.id cache with
            | some q => is_modified x q
            | Option.none => false)) := by
        intro cache' hsame
        apply List.filter_congr
        intro x hx
        rw [hsame x hx]
      cases hcase : alookup p.id cache with
      | none =>
          simp [diffRec, hcase, List.filter_cons, ih cache hp.2]
      | some q =>
          have hlook : ∀ x ∈ ps, alookup x.id (aerase p.id cache) = alookup x.id cache := by
            intro x hx
            apply alookup_aerase_ne
            intro hxe
            exact hp.1 (hxe ▸ List.mem_map_of_mem Poi.id hx)
          have hrec := ih (aerase p.id cache) hp.2
          rw [hfe _ hlook] at hrec
          by_cases hm : is_modified p q <;>
            simp [diffRec, hcase, hm, List.filter_cons, hrec]

theorem bne_comm_str (a b : String) : (a != b) = (b != a) := by
  by_cases h : a = b
  · subst h; rfl
  · rw [bne_iff_ne.mpr h, bne_iff_ne.mpr (Ne.symm h)]

theorem diffRec_deleted (pois : List Poi) :
    ∀ cache : Snapshot, (pois.map Poi.id).Nodup → (cache.map Prod.fst).Nodup →
      (diffRec pois cache).2.2 =
        cache.filter (fun kv => pois.all (fun p => p.id != kv.1)) := by
  induction pois with
  | nil => intro cache hp hc; simp [diffRec]
  | cons p ps ih =>
      intro cache hp hc
      simp only [List.map_cons, List.nodup_cons] at hp
      cases hcase : alookup p.id cache with
      | none =>
          have hne : ∀ kv ∈ cache, kv.1 ≠ p.id :=
            fun kv hkv => (alookup_eq_none_iff _ _).mp hcase kv hkv
          have hcong : cache.filter (fun kv => ps.all (fun x => x.id != kv.1)) =
              cache.filter (fun kv => (p :: ps).all (fun x => x.id != kv.1)) := by
            apply List.filter_congr
            intro kv hkv
            have h1 : (p.id != kv.1) = true :=
              bne_iff_ne.mpr (fun h':p.id = kv.1 => hne kv hkv h'.symm)
            simp [List.all_cons, h1]
          simp only [diffRec, hcase]
          rw [ih cache hp.2 hc, hcong]
      | some q =>
          have hc' : ((aerase p.id cache).map Prod.fst).Nodup :=
            hc.sublist (List.Sublist.map Prod.fst (aerase_sublist p.id cache))
          have hcomb :
              (cache.filter (fun kv => kv.1 != p.id)).filter
                  (fun kv => ps.all (fun x => x.id != kv.1)) =
              cache.filter (fun kv => (p :: ps).all (fun x => x.id != kv.1)) := by
            rw [List.filter_filter]
            apply List.filter_congr
            intro kv hkv
            simp [List.all_cons, bne_comm_str kv.1 p.id, Bool.and_comm]
          by_cases hm : is_modified p q <;>
            simp only [diffRec, hcase, hm, if_true, if_false, Bool.false_eq_true,
              not_false_iff] <;>
            rw [ih (aerase p.id cache) hp.2 hc', aerase_eq_filter hc, hcomb]

theorem diffRec_new_cache (pois : List Poi) (hp : (pois.map Poi.id).Nodup) :
    diffRec pois (new_cache pois) = ([], [], []) := by
  induction pois with
  | nil => rfl
  | cons p ps ih =>
      simp only [List.map_cons, List.nodup_cons] at hp
      have h1 : alookup p.id (new_cache (p :: ps)) = some p := by
        simp [new_cache, alookup]
      have h2 : aerase p.id (new_cache (p :: ps)) = new_cache ps := by
        simp [new_cache, aerase]
      have h3 : is_modified p p = false := by simp [is_modified]
      simp [diffRec, h1, h2, h3, ih hp.2]

theorem is_modified_eq_decide (p q : Poi) :
    is_modified p q =
      decide (p.name ≠ q.name ∨ p.description ≠ q.description) := by
  rw [Bool.eq_iff_iff]
  simp [is_modified, bne_iff_ne]

/-- Sample POI with id `"1"`. -/
def poiA : Poi := { id := "1", name := "A", description := some "d", other := [] }

/-- Sample POI with id `"2"`. -/
def poiB : Poi := { id := "2", name := "B", description := Option.none, other := [] }

/-- Claim C3 (amended: the current POI list is additionally required to
have pairwise distinct identifiers, which validated POI sets have; the
snapshot, being a mapping, has unique keys): the diff classifies each
POI absent from the snapshot as created; a POI present in the snapshot
is modified exactly when its name or description differs (no other
attribute takes part); deleted is exactly the snapshot entries whose
identifiers occur in no current POI; and with an empty snapshot every
POI is created while modified and deleted are empty. -/
theorem diff_cache_classification (pois : List Poi) (cache : Snapshot)
    (hp : (pois.map Poi.id).Nodup) (hc : (cache.map Prod.fst).Nodup) :
    (diff_cache pois cache).created =
      (pois.filter (fun p => (alookup p.id cache).isNone)).map
        (fun p => (p.id, p)) ∧
    (diff_cache pois cache).modified =
      (pois.filter (fun p =>
        match alookup p.id cache with
        | some q => decide (p.name ≠ q.name ∨ p.description ≠ q.description)
        | Option.none => false)).map (fun p => (p.id, p)) ∧
    (diff_cache pois cache).deleted =
      cache.filter (fun kv => pois.all (fun p => p.id != kv.1)) ∧
    (cache = [] →
      (diff_cache pois cache).created = pois.map (fun p => (p.id, p)) ∧
      (diff_cache pois cache).modified = [] ∧
      (diff_cache pois cache).deleted = []) := by
  have hcreated := diffRec_created pois cache hp
  have hmodified := diffRec_modified pois cache hp
  have hdeleted := diffRec_deleted pois cache hp hc
  have hmod' :
      (pois.filter (fun p =>
        match alookup p.id cache with
        | some q => is_modified p q
        | Option.none => false)) =
      (pois.filter (fun p =>
        match alookup p.id cache with
        | some q => decide (p.name ≠ q.name ∨ p.description ≠ q.description)
        | Option.none => false)) := by
    apply List.filter_congr
    intro x hx
    cases alookup x.id cache with
    | none => rfl
    | some q => simp only [is_modified_eq_decide]
  refine ⟨hcreated, ?_, hdeleted, ?_⟩
  · rw [show (diff_cache pois cache).modified = (diffRec pois cache).2.1 from rfl,
      hmodified, hmod']
  · intro hnil
    subst hnil
    refine ⟨?_, ?_, ?_⟩
    · rw [show (diff_cache pois []).created = (diffRec pois []).1 from rfl, hcreated]
      simp [alookup]
    · rw [show (diff_cache pois []).modified = (diffRec pois []).2.1 from rfl,
        hmodified]
      simp [alookup]
    · simp [diff_cache, hdeleted]

/-- Witness for `diff_cache_classification` at a concrete input. -/
theorem diff_cache_classification_witness :
    (diff_cache [poiA] [("2", poiB)]).created =
      (([poiA].filter (fun p => (alookup p.id [("2", poiB)]).isNone)).map
        (fun p => (p.id, p))) ∧
    (diff_cache [poiA] [("2", poiB)]).modified =
      (([poiA].filter (fun p =>
        match alookup p.id [("2", poiB)] with
        | some q => decide (p.name ≠ q.name ∨ p.description ≠ q.description)
        | Option.none => false)).map (fun p => (p.id, p))) ∧
    (diff_cache [poiA] [("2", poiB)]).deleted =
      ([("2", poiB)].filter (fun kv => [poiA].all (fun p => p.id != kv.1))) ∧
    (([("2", poiB)] : Snapshot) = [] →
      (diff_cache [poiA] [("2", poiB)]).created = [poiA].map (fun p => (p.id, p)) ∧
      (diff_cache [poiA] [("2", poiB)]).modified = [] ∧
      (diff_cache [poiA] [("2", poiB)]).deleted = []) :=
  diff_cache_classification [poiA] [("2", poiB)] (by decide) (by decide)

/-- Counterexample to claim C3 as stated: with a duplicated identifier
in the POI list, a POI whose identifier is present in the loaded
snapshot (and whose name and description are unchanged) is nevertheless
classified as created, so `created` is not the set of POIs absent from
the snapshot. -/
theorem diff_cache_duplicate_id_cex :
    (diff_cache [poiA, poiA] [("1", poiA)]).created = [("1", poiA)] ∧
    (alookup "1" [("1", poiA)]).isSome = true ∧
    (diff_cache [poiA, poiA] [("1", poiA)]).created ≠
      (([poiA, poiA].filter
        (fun p => (alookup p.id [("1", poiA)]).isNone)).map
          (fun p => (p.id, p))) := by
  refine ⟨rfl, rfl, ?_⟩
  intro h
  exact List.noConfusion (show (("1", poiA) :: []) = ([] : List (String × Poi)) from h)

/-- Claim C4: diffing is idempotent across runs — after a run persists
the current POI set as the snapshot, a second run with the unchanged
POI list produces an empty diff, and persists the same snapshot as the
first run. -/
theorem diff_idempotent (pois : List Poi) (s₀ : Snapshot)
    (hp : (pois.map Poi.id).Nodup) :
    (run_diff pois (run_diff pois s₀).2).1.created = [] ∧
    (run_diff pois (run_diff pois s₀).2).1.modified = [] ∧
    (run_diff pois (run_diff pois s₀).2).1.deleted = [] ∧
    (run_diff pois (run_diff pois s₀).2).2 = (run_diff pois s₀).2 := by
  have h := diffRec_new_cache pois hp
  refine ⟨?_, ?_, ?_, rfl⟩ <;> simp [run_diff, diff_cache, h]

/-- Witness for `diff_idempotent` at a concrete input. -/
theorem diff_idempotent_witness :
    (run_diff [poiA, poiB] (run_diff [poiA, poiB] [("9", poiA)]).2).1.created = [] ∧
    (run_diff [poiA, poiB] (run_diff [poiA, poiB] [("9", poiA)]).2).1.modified = [] ∧
    (run_diff [poiA, poiB] (run_diff [poiA, poiB] [("9", poiA)]).2).1.deleted = [] ∧
    (run_diff [poiA, poiB] (run_diff [poiA, poiB] [("9", poiA)]).2).2 =
      (run_diff [poiA, poiB] [("9", poiA)]).2 :=
  diff_idempotent [poiA, poiB] [("9", poiA)] (by decide)

/-- Claim C10: for POIs with pairwise distinct identifiers, no
identifier is classified in more than one of the three diff mappings. -/
theorem diff_disjoint (pois : List Poi) (cache : Snapshot)
    (hp : (pois.map Poi.id).Nodup) (hc : (cache.map Prod.fst).Nodup) :
    ((diff_cache pois cache).created.map Prod.fst).Disjoint
      ((diff_cache pois cache).modified.map Prod.fst) ∧
    ((diff_cache pois cache).created.map Prod.fst).Disjoint
      ((diff_cache pois cache).deleted.map Prod.fst) ∧
    ((diff_cache pois cache).modified.map Prod.fst).Disjoint
      ((diff_cache pois cache).deleted.map Prod.fst) := by
  have hcreated := diffRec_created pois cache hp
  have hmodified := diffRec_modified pois cache hp
  have hdeleted := diffRec_deleted pois cache hp hc
  have hinj := List.inj_on_of_nodup_map hp
  have hmemC : ∀ k, k ∈ ((diff_cache pois cache).created.map Prod.fst) →
      ∃ x ∈ pois, x.id = k ∧ (alookup x.id cache).isNone = true := by
    intro k hk
    rw [show (diff_cache pois cache).created = (diffRec pois cache).1 from rfl,
      hcreated] at hk
    simp only [List.map_map, List.mem_map, Function.comp] at hk
    obtain ⟨x, hx, hxk⟩ := hk
    exact ⟨x, (List.mem_filter.mp hx).1, hxk, (List.mem_filter.mp hx).2⟩
  have hmemM : ∀ k, k ∈ ((diff_cache pois cache).modified.map Prod.fst) →
      ∃ x ∈ pois, x.id = k ∧ (alookup x.id cache).isSome = true := by
    intro k hk
    rw [show (diff_cache pois cache).modified = (diffRec pois cache).2.1 from rfl,
      hmodified] at hk
    simp only [List.map_map, List.mem_map, Function.comp] at hk
    obtain ⟨x, hx, hxk⟩ := hk
    refine ⟨x, (List.mem_filter.mp hx).1, hxk, ?_⟩
    have := (List.mem_filter.mp hx).2
    cases hl : alookup x.id cache with
    | none => rw [hl] at this; simp at this
    | some q => rfl
  have hmemD : ∀ k, k ∈ ((diff_cache pois cache).deleted.map Prod.fst) →
      ∀ x ∈ pois, x.id ≠ k := by
    intro k hk x hx
    rw [show (diff_cache pois cache).deleted = (diffRec pois cache).2.2 from rfl,
      hdeleted] at hk
    simp only [List.mem_map] at hk
    obtain ⟨kv, hkv, hkvk⟩ := hk
    have hall := (List.mem_filter.mp hkv).2
    rw [List.all_eq_true] at hall
    exact fun hxk => (bne_iff_ne.mp (hall x hx)) (hxk.trans hkvk.symm ▸ hxk ▸ rfl)
  refine ⟨?_, ?_, ?_⟩
  · intro k hkC hkM
    obtain ⟨x, hx, hxk, hxnone⟩ := hmemC k hkC
    obtain ⟨y, hy, hyk, hysome⟩ := hmemM k hkM
    have hxy : x = y := hinj hx hy (hxk.trans hyk.symm)
    rw [hxy] at hxnone
    rw [Option.isNone_iff_eq_none.mp hxnone] at hysome
    simp at hysome
  · intro k hkC hkD
    obtain ⟨x, hx, hxk, _⟩ := hmemC k hkC
    exact hmemD k hkD x hx hxk
  · intro k hkM hkD
    obtain ⟨x, hx, hxk, _⟩ := hmemM k hkM
    exact hmemD k hkD x hx hxk

/-- Witness for `diff_disjoint` at a concrete input. -/
theorem diff_disjoint_witness :
    ((diff_cache [poiA] [("1", poiB)]).created.map Prod.fst).Disjoint
      ((diff_cache [poiA] [("1", poiB)]).modified.map Prod.fst) ∧
    ((diff_cache [poiA] [("1", poiB)]).created.map Prod.fst).Disjoint
      ((diff_cache [poiA] [("1", poiB)]).deleted.map Prod.fst) ∧
    ((diff_cache [poiA] [("1", poiB)]).modified.map Prod.fst).Disjoint
      ((diff_cache [poiA] [("1", poiB)]).deleted.map Prod.fst) :=
  diff_disjoint [poiA] [("1", poiB)] (by decide) (by decide)

/-! ### Translation merge -/

theorem clean_record_keys_nodup {attrs : List (String × PyVal)}
    (h : (attrs.map Prod.fst).Nodup) :
    ((clean_record attrs).map Prod.fst).Nodup :=
  h.sublist (List.Sublist.map Prod.fst (List.filter_sublist attrs))

theorem translation_lookup_mem {rows : List Rec} {k : String}
    {cl : List (String × PyVal)} (h : translation_lookup rows k = some cl) :
    ∃ r ∈ rows, r.id = k ∧ cl = clean_record r.attrs := by
  have hm := alookup_mem h
  rw [List.mem_reverse] at hm
  simp only [List.mem_map] at hm
  obtain ⟨r, hr, heq⟩ := hm
  obtain ⟨h1, h2⟩ := Prod.mk.injEq .. ▸ heq
  exact ⟨r, hr, h1, h2.symm⟩

/-- Claim C6: merging cleans each row of its falsy-valued attributes and
then updates, positionally and in place, exactly the POIs whose
identifier has a row; an updated attribute comes from the cleaned row
when present there (and every cleaned value is truthy, so an empty row
value never erases a populated attribute) and is otherwise unchanged;
POIs without a matching row are returned untouched. -/
theorem update_poi_translation_spec (pois rows : List Rec)
    (hr : ∀ r ∈ rows, (r.attrs.map Prod.fst).Nodup) :
    List.Forall₂ (fun p q =>
      q.id = p.id ∧
      (translation_lookup rows p.id = Option.none → q = p) ∧
      (∀ cl, translation_lookup rows p.id = some cl →
        (∀ kv ∈ cl, pyTruthy kv.2 = true) ∧
        (∀ k v, alookup k cl = some v → alookup k q.attrs = some v) ∧
        (∀ k, alookup k cl = Option.none →
          alookup k q.attrs = alookup k p.attrs)))
      pois (update_poi_translation pois rows) := by
  rw [update_poi_translation, List.forall₂_map_right_iff, List.forall₂_same]
  intro p hp
  cases hl : translation_lookup rows p.id with
  | none =>
      exact ⟨rfl, fun _ => rfl, fun cl hcl => Option.noConfusion hcl⟩
  | some cl =>
      refine ⟨rfl, fun hnone => Option.noConfusion hnone, fun cl' hcl' => ?_⟩
      obtain rfl : cl = cl' := Option.some.inj hcl'
      obtain ⟨r, hrmem, hrid, hrcl⟩ := translation_lookup_mem hl
      constructor
      · intro kv hkv
        rw [hrcl, clean_record] at hkv
        exact (List.mem_filter.mp hkv).2
      · have hclnodup : ((cl).map Prod.fst).Nodup := by
          rw [hrcl]
          exact clean_record_keys_nodup (hr r hrmem)
        constructor
        · intro k v hkv
          have h := alookup_dictUpdate hclnodup p.attrs k
          rw [hkv] at h
          exact h
        · intro k hknone
          have h := alookup_dictUpdate hclnodup p.attrs k
          rw [hknone] at h
          exact h

/-- Sample POI dictionary record with a populated `name:pl`. -/
def poiRec3 : Rec := { id := "3", attrs := [("name:pl", PyVal.str "x")] }

/-- Sample translation row for id `"3"` with an empty `name:pl` cell. -/
def rowBlank3 : Rec := { id := "3", attrs := [("name:pl", PyVal.str "")] }

/-- Witness for `update_poi_translation_spec` at the concrete
blank-cell row of the specification. -/
theorem update_poi_translation_spec_witness :
    List.Forall₂ (fun p q =>
      q.id = p.id ∧
      (translation_lookup [rowBlank3] p.id = Option.none → q = p) ∧
      (∀ cl, translation_lookup [rowBlank3] p.id = some cl →
        (∀ kv ∈ cl, pyTruthy kv.2 = true) ∧
        (∀ k v, alookup k cl = some v → alookup k q.attrs = some v) ∧
        (∀ k, alookup k cl = Option.none →
          alookup k q.attrs = alookup k p.attrs)))
      [poiRec3] (update_poi_translation [poiRec3] [rowBlank3]) :=
  update_poi_translation_spec [poiRec3] [rowBlank3] (by decide)

/-! ### Code-bug evaluations -/

/-- Claim C1 (code bug): `filter_translation` fed the diff structure
that `diff_cache` produces (mappings keyed by identifier) iterates the
mapping's string keys and subscripts each with `'id'`, raising
`TypeError` as soon as `modified` or `deleted` is non-empty; with the
spec's input (modified id 1, deleted id 2, rows 1, 2, 3) it raises
instead of returning the row with id 3.  Only with both mappings empty
does it return, and then it filters nothing. -/
theorem filter_translation_type_error :
    filter_translation
      [{ id := "1", attrs := [] }, { id := "2", attrs := [] },
       { id := "3", attrs := [] }]
      { created := [], modified := [("1", poiA)], deleted := [("2", poiB)] } =
      .error (.typeError "string indices must be integers") ∧
    filter_translation
      [{ id := "1", attrs := [] }, { id := "2", attrs := [] },
       { id := "3", attrs := [] }]
      { created := [], modified := [], deleted := [] } =
      .ok [{ id := "1", attrs := [] }, { id := "2", attrs := [] },
        { id := "3", attrs := [] }] :=
  ⟨rfl, rfl⟩

/-- Claim C2 (code bug): validators are not total over arbitrary input —
`parse_lat` on `None` raises `TypeError` and `parse_verified` on a
truthy number raises `AttributeError`, neither of which is the
`ValueError` failure type the pipeline catches. -/
theorem validator_uncaught_type_error :
    Parser.parse_lat PyVal.none =
      .error (.typeError "float() argument must be a string or a number") ∧
    isValueError (.typeError "float() argument must be a string or a number") =
      false ∧
    Parser.parse_verified (.num 1) =
      .error (.attributeError "object has no attribute strip") ∧
    isValueError (.attributeError "object has no attribute strip") = false :=
  ⟨rfl, rfl, rfl, rfl⟩

/-- Marker whose `name` and `lat` both fail with `ValueError`. -/
def markerInvalid : Marker :=
  [("id", PyVal.str "1"), ("name", PyVal.str ""), ("lat", PyVal.num 100)]

/-- Marker whose `lat` is null, so `float(None)` raises `TypeError`. -/
def markerCrash : Marker := [("id", PyVal.str "2"), ("lat", PyVal.none)]

/-- Claim C5 (code bug): on benign inputs the pipeline does validate
every field of a record and routes it with the complete error map (both
the empty-name and the out-of-range-latitude errors are collected), but
a record whose field raises an uncaught error (null `lat`) aborts the
whole partition with `TypeError`, producing no output at all. -/
theorem parse_pois_abort :
    parse_pois [markerInvalid] =
      .ok ([], [([("name", "Name cannot be empty!"),
                  ("lat", "Suspicious latitude: 100")], markerInvalid)]) ∧
    parse_pois [markerInvalid, markerCrash] =
      .error (.typeError "float() argument must be a string or a number") :=
  ⟨rfl, rfl⟩

/-! ### Field validator properties -/

/-- Was the validation accepted (no exception)? -/
def exceptOk (e : Except PyErr PyVal) : Bool :=
  match e with
  | .ok _ => true
  | .error _ => false

/-- Claim C7: latitude is accepted exactly on the open interval
(45, 56) and longitude exactly on (12, 30); accepted values pass
through unchanged; every rejection is a `ValueError` reporting the
offending value; the boundaries 45 and 56 are rejected while 45.0001
and 55.9999 are accepted. -/
theorem lat_lng_open_interval :
    (∀ q : ℚ, exceptOk (Parser.parse_lat (.num q)) = true ↔ (45 < q ∧ q < 56)) ∧
    (∀ q : ℚ, 45 < q ∧ q < 56 → Parser.parse_lat (.num q) = .ok (.num q)) ∧
    (∀ q : ℚ, ¬(45 < q ∧ q < 56) →
      Parser.parse_lat (.num q) =
        .error (.valueError ("Suspicious latitude: " ++ toString q))) ∧
    (∀ q : ℚ, exceptOk (Parser.parse_lng (.num q)) = true ↔ (12 < q ∧ q < 30)) ∧
    (∀ q : ℚ, 12 < q ∧ q < 30 → Parser.parse_lng (.num q) = .ok (.num q)) ∧
    (∀ q : ℚ, ¬(12 < q ∧ q < 30) →
      Parser.parse_lng (.num q) =
        .error (.valueError ("Suspicious longitude: " ++ toString q))) ∧
    exceptOk (Parser.parse_lat (.num 45)) = false ∧
    exceptOk (Parser.parse_lat (.num 56)) = false ∧
    exceptOk (Parser.parse_lat (.num 45.0001)) = true ∧
    exceptOk (Parser.parse_lat (.num 55.9999)) = true := by
  refine ⟨?_, ?_, ?_, ?_, ?_, ?_, ?_, ?_, ?_, ?_⟩
  · intro q
    by_cases h : (45 : ℚ) < q ∧ q < 56 <;>
      simp [Parser.parse_lat, pyFloat, exceptOk, h]
  · intro q h
    simp [Parser.parse_lat, pyFloat, h]
  · intro q h
    simp [Parser.parse_lat, pyFloat, h]
  · intro q
    by_cases h : (12 : ℚ) < q ∧ q < 30 <;>
      simp [Parser.parse_lng, pyFloat, exceptOk, h]
  · intro q h
    simp [Parser.parse_lng, pyFloat, h]
  · intro q h
    simp [Parser.parse_lng, pyFloat, h]
  · norm_num [Parser.parse_lat, pyFloat, exceptOk]
  · norm_num [Parser.parse_lat, pyFloat, exceptOk]
  · norm_num [Parser.parse_lat, pyFloat, exceptOk]
  · norm_num [Parser.parse_lat, pyFloat, exceptOk]

/-- Witness for `lat_lng_open_interval` at concrete inputs. -/
theorem lat_lng_open_interval_witness :
    ((45 : ℚ) < 52 ∧ (52 : ℚ) < 56) ∧
    Parser.parse_lat (.num 52) = .ok (.num 52) ∧
    ¬((45 : ℚ) < 100 ∧ (100 : ℚ) < 56) ∧
    Parser.parse_lat (.num 100) =
      .error (.valueError ("Suspicious latitude: " ++ toString (100 : ℚ))) ∧
    Parser.parse_lng (.num 100) =
      .error (.valueError ("Suspicious longitude: " ++ toString (100 : ℚ))) :=
  ⟨by norm_num, lat_lng_open_interval.2.1 52 (by norm_num), by norm_num,
   lat_lng_open_interval.2.2.1 100 (by norm_num),
   lat_lng_open_interval.2.2.2.2.2.1 100 (by norm_num)⟩

/-- Claim C8: category validation maps the empty list to the default
category, rejects lists of more than one element, maps each of the 9
known codes to its fixed name, and rejects any one-element list with an
unknown code with an unexpected-category-id reason. -/
theorem parse_category_spec :
    Parser.parse_category (.list []) = .ok (.str "charityDropOff") ∧
    (∀ xs : List PyVal, 1 < xs.length →
      Parser.parse_category (.list xs) =
        .error (.valueError
          ("Unexpected multiple categories: " ++ pyStr (.list xs)))) ∧
    (Parser.parse_category (.list [.str "1"]) = .ok (.str "charityDropOff") ∧
     Parser.parse_category (.list [.str "2"]) = .ok (.str "accommodation") ∧
     Parser.parse_category (.list [.str "3"]) = .ok (.str "govermentCharity") ∧
     Parser.parse_category (.list [.str "4"]) =
       .ok (.str "psychologicalAssistance") ∧
     Parser.parse_category (.list [.str "5"]) = .ok (.str "legalAssistance") ∧
     Parser.parse_category (.list [.str "6"]) = .ok (.str "medicalAssistance") ∧
     Parser.parse_category (.list [.str "7"]) = .ok (.str "animalAssistance") ∧
     Parser.parse_category (.list [.str "8"]) = .ok (.str "childcare") ∧
     Parser.parse_category (.list [.str "9"]) = .ok (.str "transport")) ∧
    (∀ c : String, alookup c Parser.CATEGORIES = Option.none →
      Parser.parse_category (.list [.str c]) =
        .error (.valueError ("Unexpected category ID: " ++ pyStr (.str c)))) ∧
    (∀ x : PyVal, (∀ s : String, x ≠ .str s) →
      Parser.parse_category (.list [x]) =
        .error (.valueError ("Unexpected category ID: " ++ pyStr x))) := by
  refine ⟨rfl, ?_, ⟨rfl, rfl, rfl, rfl, rfl, rfl, rfl, rfl, rfl⟩, ?_, ?_⟩
  · intro xs h
    simp only [Parser.parse_category]
    rw [if_pos h]
  · intro c hc
    simp [Parser.parse_category, hc]
  · intro x hx
    cases x with
    | str s => exact absurd rfl (hx s)
    | none => rfl
    | num q => rfl
    | bool b => rfl
    | list xs => rfl

/-- Witness for `parse_category_spec` at concrete inputs. -/
theorem parse_category_spec_witness :
    Parser.parse_category (.list [PyVal.none, PyVal.none]) =
      .error (.valueError
        ("Unexpected multiple categories: " ++
          pyStr (.list [PyVal.none, PyVal.none]))) ∧
    Parser.parse_category (.list [.str "42"]) =
      .error (.valueError ("Unexpected category ID: " ++ pyStr (.str "42"))) ∧
    Parser.parse_category (.list [PyVal.bool true]) =
      .error (.valueError ("Unexpected category ID: " ++ pyStr (.bool true))) :=
  ⟨parse_category_spec.2.1 [PyVal.none, PyVal.none] (by decide),
   parse_category_spec.2.2.2.1 "42" rfl,
   parse_category_spec.2.2.2.2 (.bool true) (fun s h => PyVal.noConfusion h)⟩

/-- The two verified vocabularies share no member. -/
theorem true_false_vocab_disjoint :
    ∀ x ∈ Parser.TRUE_VALUES, x ∉ Parser.FALSE_VALUES := by decide

theorem parse_verified_str_true (s : String) (hs : s ≠ "")
    (hT : Parser.pyCleanLower s ∈ Parser.TRUE_VALUES) :
    Parser.parse_verified (.str s) = .ok (.bool true) := by
  have htr : pyTruthy (.str s) = true := bne_iff_ne.mpr hs
  simp only [Parser.parse_verified, htr, Bool.true_eq_false, if_false]
  rw [if_pos hT]

theorem parse_verified_str_false (s : String) (hs : s ≠ "")
    (hF : Parser.pyCleanLower s ∈ Parser.FALSE_VALUES) :
    Parser.parse_verified (.str s) = .ok (.bool false) := by
  have htr : pyTruthy (.str s) = true := bne_iff_ne.mpr hs
  have hT : Parser.pyCleanLower s ∉ Parser.TRUE_VALUES := by
    intro hmem
    exact true_false_vocab_disjoint _ hmem hF
  simp only [Parser.parse_verified, htr, Bool.true_eq_false, if_false]
  rw [if_neg hT, if_pos hF]

theorem parse_verified_str_error (s : String) (hs : s ≠ "")
    (hT : Parser.pyCleanLower s ∉ Parser.TRUE_VALUES)
    (hF : Parser.pyCleanLower s ∉ Parser.FALSE_VALUES) :
    Parser.parse_verified (.str s) =
      .error (.valueError ("Unexpected verified value: " ++ s)) := by
  have htr : pyTruthy (.str s) = true := bne_iff_ne.mpr hs
  simp only [Parser.parse_verified, htr, Bool.true_eq_false, if_false]
  rw [if_neg hT, if_neg hF]

/-- Claim C9: verified-status validation maps falsy input (null or the
empty string) to `false`; a non-empty string is classified through its
whitespace-free lower-cased form — vocabulary member → `true`/`false`,
anything else → `ValueError` — so classification depends only on that
normal form and is insensitive to case and whitespace. -/
theorem parse_verified_spec :
    Parser.parse_verified PyVal.none = .ok (.bool false) ∧
    Parser.parse_verified (.str "") = .ok (.bool false) ∧
    (∀ s : String, s ≠ "" → Parser.pyCleanLower s ∈ Parser.TRUE_VALUES →
      Parser.parse_verified (.str s) = .ok (.bool true)) ∧
    (∀ s : String, s ≠ "" → Parser.pyCleanLower s ∈ Parser.FALSE_VALUES →
      Parser.parse_verified (.str s) = .ok (.bool false)) ∧
    (∀ s : String, s ≠ "" → Parser.pyCleanLower s ∉ Parser.TRUE_VALUES →
      Parser.pyCleanLower s ∉ Parser.FALSE_VALUES →
      Parser.parse_verified (.str s) =
        .error (.valueError ("Unexpected verified value: " ++ s))) ∧
    (∀ s t : String, s ≠ "" → t ≠ "" →
      Parser.pyCleanLower s = Parser.pyCleanLower t →
      (Parser.parse_verified (.str s)).toOption =
        (Parser.parse_verified (.str t)).toOption) := by
  refine ⟨rfl, rfl, parse_verified_str_true, parse_verified_str_false,
    parse_verified_str_error, ?_⟩
  intro s t hs ht hst
  by_cases hT : Parser.pyCleanLower s ∈ Parser.TRUE_VALUES
  · rw [parse_verified_str_true s hs hT,
      parse_verified_str_true t ht (hst ▸ hT)]
  · by_cases hF : Parser.pyCleanLower s ∈ Parser.FALSE_VALUES
    · rw [parse_verified_str_false s hs hF,
        parse_verified_str_false t ht (hst ▸ hF)]
    · rw [parse_verified_str_error s hs hT hF,
        parse_verified_str_error t ht (hst ▸ hT) (hst ▸ hF)]
      rfl

/-- Witness for `parse_verified_spec` at concrete inputs: a padded
mixed-case true-vocabulary member, an upper-case false member, and an
unrecognized string. -/
theorem parse_verified_spec_witness :
    Parser.parse_verified (.str " T a k ") = .ok (.bool true) ∧
    Parser.parse_verified (.str "NIE") = .ok (.bool false) ∧
    Parser.parse_verified (.str "maybe") =
      .error (.valueError ("Unexpected verified value: " ++ "maybe")) ∧
    (Parser.parse_verified (.str " Tak ")).toOption =
      (Parser.parse_verified (.str "TAK")).toOption :=
  ⟨parse_verified_spec.2.2.1 " T a k " (by decide) (by decide),
   parse_verified_spec.2.2.2.1 "NIE" (by decide) (by decide),
   parse_verified_spec.2.2.2.2.1 "maybe" (by decide) (by decide) (by decide),
   parse_verified_spec.2.2.2.2.2 " Tak " "TAK" (by decide) (by decide) (by decide)⟩
